import Mathlib

/-!
Shallow embedding of the HCS-10 OpenConvAI protocol layer of the
aetherflow-traffic backend:

* `AIAgent` — the agent record from
  `backend/src/aetherflow/models/ai_agents.py`, restricted to the fields the
  protocol layer reads or writes.
* `AgentRegistry` operations — from
  `backend/src/aetherflow/hcs10/agent_registry.py`.
* The HTTP endpoint flows — from
  `backend/src/aetherflow/api/v1/endpoints/hcs10_communication.py`.

Each external Hedera call (`create_topic`, `submit_message`) is an independent
asynchronous call whose outcome the code observes only through the returned
`Optional[str]`.  We therefore pass the result of each call in as an explicit
`Option String` parameter; Python truthiness on those optional strings
(`if tx_id:` — `None` and `""` are falsy) is modelled by `isTruthy`.
Successful submissions are recorded in a log of `SubmitRec`s, the shallow
counterpart of the append-only topic log.  `datetime.utcnow()` is an external
input as well and is passed as a `now : Nat` parameter.
-/

namespace Aetherflow

/-- Python truthiness of an `Optional[str]`: `None` and `""` are falsy. -/
def isTruthy : Option String → Bool
  | none => false
  | some s => !s.isEmpty

/-- Python `str()` of an `Optional[str]` as it appears inside an f-string:
`None` prints as `"None"`. -/
def pyStr : Option String → String
  | none => "None"
  | some s => s

/-- `AgentStatus` enum of `models/ai_agents.py`. -/
inductive AgentStatus where
  | active
  | inactive
  | suspended
  | deleted
deriving DecidableEq, Repr

/-- The fields of the `AIAgent` model (`models/ai_agents.py`) that the HCS-10
protocol layer reads or writes.  Column defaults are the Python defaults. -/
structure AIAgent where
  accountId : String
  agentName : String
  agentType : String := "general_purpose"
  status : AgentStatus := .active
  registryTopicId : Option String := none
  inboundTopicId : Option String := none
  outboundTopicId : Option String := none
  ttl : Nat := 60
  maxConnections : Nat := 100
  activeConnections : Nat := 0
  messagesSent : Nat := 0
  messagesReceived : Nat := 0
  registrationTxId : Option String := none
  lastActivity : Nat := 0
deriving DecidableEq, Repr

/-- `AIAgent.update_activity`: sets `last_activity = datetime.utcnow()`;
the wall clock reading is the `now` parameter. -/
def AIAgent.update_activity (a : AIAgent) (now : Nat) : AIAgent :=
  { a with lastActivity := now }

/-- `AIAgent.increment_messages_sent`. -/
def AIAgent.increment_messages_sent (a : AIAgent) (now : Nat) : AIAgent :=
  ({ a with messagesSent := a.messagesSent + 1 }).update_activity now

/-- `AIAgent.increment_messages_received`. -/
def AIAgent.increment_messages_received (a : AIAgent) (now : Nat) : AIAgent :=
  ({ a with messagesReceived := a.messagesReceived + 1 }).update_activity now

/-- `AIAgent.get_topic_memo`: the HCS-10 topic memo string. -/
def AIAgent.get_topic_memo (a : AIAgent) (topicType : String) : String :=
  if topicType == "registry" then
    "hcs-10:0:" ++ toString a.ttl ++ ":3:" ++ (match a.registryTopicId with
      | some s => s
      | none => "")
  else if topicType == "inbound" then
    "hcs-10:0:" ++ toString a.ttl ++ ":0:" ++ a.accountId
  else if topicType == "outbound" then
    "hcs-10:0:" ++ toString a.ttl ++ ":1"
  else
    "hcs-10:0:" ++ toString a.ttl ++ ":" ++
      (if topicType == "connection" then "2" else "0")

/-- One JSON payload posted to a topic.  The fields are the union of the
dict keys the registry code ever puts in a payload; `op` is the Python
string tag. -/
structure Envelope where
  p : String := "hcs-10"
  op : String
  operatorId : Option String := none
  uid : Option String := none
  accountIdField : Option String := none
  connectionTopicId : Option String := none
  connectedAccountId : Option String := none
  connectionId : Option Nat := none
  scheduleId : Option String := none
  data : Option String := none
  m : String := ""
deriving DecidableEq, Repr

/-- `AIAgent.get_hcs10_register_payload`. -/
def AIAgent.get_hcs10_register_payload (a : AIAgent) : Envelope :=
  { op := "register"
    accountIdField := some a.accountId
    m := "Registering " ++ a.agentType ++ " agent: " ++ a.agentName }

/-- One successful `submit_message` call: target topic, payload, tx memo. -/
structure SubmitRec where
  topicId : String
  payload : Envelope
  memo : String
deriving DecidableEq, Repr

/-- Mutable state of the `AgentRegistry` object (`agent_registry.py`). -/
structure RegistryState where
  registryTopicId : Option String := none
  ttl : Nat := 60
deriving DecidableEq, Repr

/-- `AgentRegistry.initialize_registry`.  `createRes` is the result of the
`create_topic` call (consulted only when no registry topic is set yet). -/
def initialize_registry (st : RegistryState) (createRes : Option String) :
    RegistryState × Option String :=
  if isTruthy st.registryTopicId then
    (st, st.registryTopicId)
  else
    if isTruthy createRes then
      ({ st with registryTopicId := createRes }, createRes)
    else
      (st, createRes)

/-- Result of a registry operation: updated registry state, updated agent,
messages appended by successful submissions, and the returned tx id. -/
structure OpResult where
  st : RegistryState
  agent : AIAgent
  log : List SubmitRec
  tx : Option String
deriving DecidableEq, Repr

/-- `AgentRegistry.register_agent`: initialize the registry topic if missing,
then append a Register envelope to it; on a truthy tx id set
`registration_tx_id` and `status = ACTIVE`.  `createRes` is the result of the
`create_topic` call inside `initialize_registry` (if reached), `submitRes` the
result of the `submit_message` call. -/
def register_agent (st : RegistryState) (agent : AIAgent)
    (createRes submitRes : Option String) : OpResult :=
  let st1 := if isTruthy st.registryTopicId then st
             else (initialize_registry st createRes).1
  if !isTruthy st1.registryTopicId then
    { st := st1, agent := agent, log := [], tx := none }
  else
    let payload := agent.get_hcs10_register_payload
    if isTruthy submitRes then
      { st := st1
        agent := { agent with registrationTxId := submitRes, status := .active }
        log := [⟨pyStr st1.registryTopicId, payload, "hcs-10:op:0:0"⟩]
        tx := submitRes }
    else
      { st := st1, agent := agent, log := [], tx := submitRes }

/-- `AgentRegistry.delete_agent`: append a Delete envelope to the registry
topic; on a truthy tx id set `status = DELETED`. -/
def delete_agent (st : RegistryState) (agent : AIAgent) (uid : String)
    (submitRes : Option String) : OpResult :=
  if !isTruthy st.registryTopicId then
    { st := st, agent := agent, log := [], tx := none }
  else
    let payload : Envelope :=
      { op := "delete"
        uid := some uid
        m := "Removing agent " ++ agent.agentName ++ " from registry." }
    if isTruthy submitRes then
      { st := st
        agent := { agent with status := .deleted }
        log := [⟨pyStr st.registryTopicId, payload, "hcs-10:op:1:0"⟩]
        tx := submitRes }
    else
      { st := st, agent := agent, log := [], tx := submitRes }

/-- `AgentRegistry.create_agent_topics`: create the inbound topic, then —
regardless of the inbound outcome — the outbound topic; each topic id field is
assigned only when its own `create_topic` call returned a truthy id.  Returns
the updated agent and the `topics` dict `{inbound, outbound}`. -/
def create_agent_topics (agent : AIAgent) (inRes outRes : Option String) :
    AIAgent × Option String × Option String :=
  let a1 := if isTruthy inRes then { agent with inboundTopicId := inRes }
            else agent
  let a2 := if isTruthy outRes then { a1 with outboundTopicId := outRes }
            else a1
  (a2, (if isTruthy inRes then inRes else none),
       (if isTruthy outRes then outRes else none))

/-- `AgentRegistry.send_connection_request`: refuse when the requester has no
(truthy) outbound topic; otherwise append a ConnectionRequest envelope to the
inbound topic of the target and, on a truthy tx id, increment
`from_agent.messages_sent`. -/
def send_connection_request (fromAgent : AIAgent) (toInbound : String)
    (submitRes : Option String) (now : Nat) : AIAgent × List SubmitRec × Option String :=
  if !isTruthy fromAgent.outboundTopicId then
    (fromAgent, [], none)
  else
    let payload : Envelope :=
      { op := "connection_request"
        operatorId := some (fromAgent.accountId ++ "@" ++ pyStr fromAgent.inboundTopicId)
        m := "Requesting connection from " ++ fromAgent.agentName }
    if isTruthy submitRes then
      (fromAgent.increment_messages_sent now,
       [⟨toInbound, payload, "hcs-10:op:3:1"⟩], submitRes)
    else
      (fromAgent, [], submitRes)

/-- `AgentRegistry._notify_connection_created`: append a ConnectionCreated
envelope to the `to_agent` inbound topic; on a truthy tx id increment
`to_agent.messages_received` and `to_agent.active_connections`. -/
def notify_connection_created (toAgent fromAgent : AIAgent)
    (connectionTopicId : String) (connectionId : Nat)
    (submitRes : Option String) (now : Nat) : AIAgent × List SubmitRec × Option String :=
  let payload : Envelope :=
    { op := "connection_created"
      connectionTopicId := some connectionTopicId
      connectedAccountId := some fromAgent.accountId
      operatorId := some (fromAgent.accountId ++ "@" ++ pyStr fromAgent.inboundTopicId)
      connectionId := some connectionId
      m := "Connection established with " ++ fromAgent.agentName }
  if isTruthy submitRes then
    ({ toAgent.increment_messages_received now with
        activeConnections := toAgent.activeConnections + 1 },
     [⟨pyStr toAgent.inboundTopicId, payload, "hcs-10:op:4:1"⟩], submitRes)
  else
    (toAgent, [], submitRes)

/-- `AgentRegistry.create_connection_topic`: create the connection topic; on
success notify first `agent_a` then `agent_b`.  `createRes` is the
`create_topic` result, `subA`/`subB` the two notification submit results. -/
def create_connection_topic (st : RegistryState) (agentA agentB : AIAgent)
    (connectionId : Nat) (createRes subA subB : Option String) (now : Nat) :
    AIAgent × AIAgent × List SubmitRec × Option String :=
  let _memo := "hcs-10:1:" ++ toString st.ttl ++ ":2:" ++
    pyStr agentA.inboundTopicId ++ ":" ++ toString connectionId
  if isTruthy createRes then
    let ct := pyStr createRes
    let ra := notify_connection_created agentA agentB ct connectionId subA now
    let rb := notify_connection_created agentB agentA ct connectionId subB now
    (ra.1, rb.1, ra.2.1 ++ rb.2.1, createRes)
  else
    (agentA, agentB, [], createRes)

/-- `AgentRegistry.send_message`: append a Message envelope to the connection
topic; on a truthy tx id increment `from_agent.messages_sent` (which also
refreshes `last_activity`). -/
def send_message (fromAgent : AIAgent) (connectionTopicId : String)
    (messageData : String) (submitRes : Option String) (now : Nat) :
    AIAgent × List SubmitRec × Option String :=
  let payload : Envelope :=
    { op := "message"
      operatorId := some (fromAgent.accountId ++ "@" ++ pyStr fromAgent.inboundTopicId)
      data := some messageData
      m := "Standard communication." }
  if isTruthy submitRes then
    (fromAgent.increment_messages_sent now,
     [⟨connectionTopicId, payload, "hcs-10:op:6:3"⟩], submitRes)
  else
    (fromAgent, [], submitRes)

/-- `AgentRegistry.send_transaction_request`: append a Transaction envelope
carrying `schedule_id`; on a truthy tx id increment `from_agent.messages_sent`. -/
def send_transaction_request (fromAgent : AIAgent) (connectionTopicId : String)
    (scheduleId : String) (transactionData : String)
    (submitRes : Option String) (now : Nat) : AIAgent × List SubmitRec × Option String :=
  let payload : Envelope :=
    { op := "transaction"
      operatorId := some (fromAgent.accountId ++ "@" ++ pyStr fromAgent.inboundTopicId)
      scheduleId := some scheduleId
      data := some transactionData
      m := "For your approval." }
  if isTruthy submitRes then
    (fromAgent.increment_messages_sent now,
     [⟨connectionTopicId, payload, "hcs-10:op:7:3"⟩], submitRes)
  else
    (fromAgent, [], submitRes)

/-! ## API endpoint layer (`api/v1/endpoints/hcs10_communication.py`)

The relational store is the list `db` of `AIAgent` records, unique per
`account_id` (the column is `unique=True`); `dbLookup` is the
`select ... where account_id == x` query, `dbUpdate` the commit of an
in-place mutation of a fetched record. -/

/-- `select(AIAgent).where(AIAgent.account_id == acct)` + `scalar_one_or_none`. -/
def dbLookup (db : List AIAgent) (acct : String) : Option AIAgent :=
  db.find? (fun a => a.accountId == acct)

/-- Replace the record with the same `account_id` (in-place mutation of a
fetched ORM object followed by commit). -/
def dbUpdate (db : List AIAgent) (a : AIAgent) : List AIAgent :=
  db.map (fun b => if b.accountId == a.accountId then a else b)

/-- `AgentRegistrationRequest` schema fields used by the endpoint. -/
structure RegistrationRequest where
  agentName : String
  agentType : String := "general_purpose"
  accountId : String
  maxConnections : Option Nat := some 100
deriving DecidableEq, Repr

/-- Errors surfaced by the endpoints as HTTP statuses. -/
inductive ApiError where
  | conflict
  | notFound
deriving DecidableEq, Repr

/-- The success body of `POST /agents/register`. -/
structure RegisterResponse where
  accountId : String
  registrationTxId : Option String
  inboundTopicId : Option String
  outboundTopicId : Option String
deriving DecidableEq, Repr

/-- Result of an endpoint call: updated db, registry state, appended
messages, and the HTTP-level outcome. -/
structure ApiResult (α : Type) where
  db : List AIAgent
  st : RegistryState
  log : List SubmitRec
  out : Except ApiError α
deriving Repr

/-- `POST /agents/register` (`register_agent` endpoint): a 409 Conflict when
the `account_id` already exists; otherwise a fresh record is created with
status INACTIVE (`max_connections = request.max_connections or 100`, Python
`or` on the optional), its topics are attempted
(`inRes`/`outRes` are the two `create_topic` results), the registry
registration is attempted (`regCreateRes`/`regSubmitRes`), and on a truthy
registration tx id the record becomes ACTIVE. -/
def api_register_agent (db : List AIAgent) (st : RegistryState)
    (req : RegistrationRequest)
    (inRes outRes regCreateRes regSubmitRes : Option String) :
    ApiResult RegisterResponse :=
  match dbLookup db req.accountId with
  | some _ => { db := db, st := st, log := [], out := .error .conflict }
  | none =>
    let agent : AIAgent :=
      { accountId := req.accountId
        agentName := req.agentName
        agentType := req.agentType
        maxConnections := match req.maxConnections with
          | some n => if n == 0 then 100 else n
          | none => 100
        status := .inactive }
    let (agent1, _, _) := create_agent_topics agent inRes outRes
    let r := register_agent st agent1 regCreateRes regSubmitRes
    let agent2 :=
      if isTruthy r.tx then
        { r.agent with registrationTxId := r.tx, status := .active }
      else r.agent
    { db := db ++ [agent2]
      st := r.st
      log := r.log
      out := .ok { accountId := agent2.accountId
                   registrationTxId := r.tx
                   inboundTopicId := agent2.inboundTopicId
                   outboundTopicId := agent2.outboundTopicId } }

/-- `POST /connections/request` (`request_connection` endpoint). -/
def api_request_connection (db : List AIAgent) (st : RegistryState)
    (fromAgentId toInbound : String) (submitRes : Option String) (now : Nat) :
    ApiResult (Option String) :=
  match dbLookup db fromAgentId with
  | none => { db := db, st := st, log := [], out := .error .notFound }
  | some fromAgent =>
    let (a1, log, tx) := send_connection_request fromAgent toInbound submitRes now
    { db := dbUpdate db a1, st := st, log := log, out := .ok tx }

/-- `POST /messages/send` (`send_message` endpoint). -/
def api_send_message (db : List AIAgent) (st : RegistryState)
    (fromAgentId connectionTopicId messageData : String)
    (submitRes : Option String) (now : Nat) : ApiResult (Option String) :=
  match dbLookup db fromAgentId with
  | none => { db := db, st := st, log := [], out := .error .notFound }
  | some fromAgent =>
    let (a1, log, tx) := send_message fromAgent connectionTopicId messageData submitRes now
    { db := dbUpdate db a1, st := st, log := log, out := .ok tx }

/-- `POST /transactions/request` (`request_transaction` endpoint): calls
`AgentRegistry.send_transaction_request` and then, on a truthy tx id, calls
`from_agent.increment_messages_sent()` once more before committing. -/
def api_request_transaction (db : List AIAgent) (st : RegistryState)
    (fromAgentId connectionTopicId scheduleId transactionData : String)
    (submitRes : Option String) (now : Nat) : ApiResult (Option String) :=
  match dbLookup db fromAgentId with
  | none => { db := db, st := st, log := [], out := .error .notFound }
  | some fromAgent =>
    let (a1, log, tx) :=
      send_transaction_request fromAgent connectionTopicId scheduleId
        transactionData submitRes now
    let a2 := if isTruthy tx then a1.increment_messages_sent now else a1
    { db := dbUpdate db a2, st := st, log := log, out := .ok tx }

/-! ## Reachable protocol states

A system state bundles the relational store of agent records, the registry
object state, and the log of successfully submitted envelopes.  A step is
one protocol operation with arbitrary outcomes of the external Hedera calls:
the HTTP endpoints, plus the `AgentRegistry` methods invoked on a stored
record (the registry methods are public and take the agent object directly). -/

/-- Global protocol state: the stored agent records, the `AgentRegistry`
object state, the accumulated topic log. -/
structure Sys where
  db : List AIAgent
  st : RegistryState
  log : List SubmitRec
deriving DecidableEq, Repr

/-- The state at application startup: no agents, no registry topic. -/
def Sys.init : Sys := { db := [], st := {}, log := [] }

/-- Effect of `POST /agents/register`. -/
def Sys.afterApiRegister (s : Sys) (req : RegistrationRequest)
    (inRes outRes regCreateRes regSubmitRes : Option String) : Sys :=
  let r := api_register_agent s.db s.st req inRes outRes regCreateRes regSubmitRes
  { db := r.db, st := r.st, log := s.log ++ r.log }

/-- Effect of calling `AgentRegistry.register_agent` directly on a stored
record (a no-op when the account is unknown). -/
def Sys.afterRegRegister (s : Sys) (acct : String)
    (createRes submitRes : Option String) : Sys :=
  match dbLookup s.db acct with
  | none => s
  | some a =>
    let r := register_agent s.st a createRes submitRes
    { db := dbUpdate s.db r.agent, st := r.st, log := s.log ++ r.log }

/-- Effect of calling `AgentRegistry.delete_agent` on a stored record. -/
def Sys.afterDelete (s : Sys) (acct uid : String) (submitRes : Option String) : Sys :=
  match dbLookup s.db acct with
  | none => s
  | some a =>
    let r := delete_agent s.st a uid submitRes
    { db := dbUpdate s.db r.agent, st := r.st, log := s.log ++ r.log }

/-- Effect of calling `AgentRegistry.create_agent_topics` on a stored record. -/
def Sys.afterCreateTopics (s : Sys) (acct : String) (inRes outRes : Option String) : Sys :=
  match dbLookup s.db acct with
  | none => s
  | some a =>
    let r := create_agent_topics a inRes outRes
    { s with db := dbUpdate s.db r.1 }

/-- Effect of `POST /connections/request`. -/
def Sys.afterConnRequest (s : Sys) (fromAcct toInbound : String)
    (submitRes : Option String) (now : Nat) : Sys :=
  let r := api_request_connection s.db s.st fromAcct toInbound submitRes now
  { db := r.db, st := r.st, log := s.log ++ r.log }

/-- Effect of calling `AgentRegistry.create_connection_topic` on two stored
records (connection-topic creation followed by the two
`_notify_connection_created` calls). -/
def Sys.afterConnTopic (s : Sys) (acctA acctB : String) (connectionId : Nat)
    (createRes subA subB : Option String) (now : Nat) : Sys :=
  match dbLookup s.db acctA, dbLookup s.db acctB with
  | some a, some b =>
    let r := create_connection_topic s.st a b connectionId createRes subA subB now
    { s with db := dbUpdate (dbUpdate s.db r.1) r.2.1, log := s.log ++ r.2.2.1 }
  | _, _ => s

/-- Effect of one `AgentRegistry._notify_connection_created` call on stored
records (the connection-created notification operation named by the claims). -/
def Sys.afterNotify (s : Sys) (toAcct fromAcct connectionTopicId : String)
    (connectionId : Nat) (submitRes : Option String) (now : Nat) : Sys :=
  match dbLookup s.db toAcct, dbLookup s.db fromAcct with
  | some toA, some fromA =>
    let r := notify_connection_created toA fromA connectionTopicId connectionId submitRes now
    { s with db := dbUpdate s.db r.1, log := s.log ++ r.2.1 }
  | _, _ => s

/-- Effect of `POST /messages/send`. -/
def Sys.afterSendMessage (s : Sys) (fromAcct connectionTopicId messageData : String)
    (submitRes : Option String) (now : Nat) : Sys :=
  let r := api_send_message s.db s.st fromAcct connectionTopicId messageData submitRes now
  { db := r.db, st := r.st, log := s.log ++ r.log }

/-- Effect of `POST /transactions/request`. -/
def Sys.afterSendTransaction (s : Sys)
    (fromAcct connectionTopicId scheduleId transactionData : String)
    (submitRes : Option String) (now : Nat) : Sys :=
  let r := api_request_transaction s.db s.st fromAcct connectionTopicId
             scheduleId transactionData submitRes now
  { db := r.db, st := r.st, log := s.log ++ r.log }

/-- One protocol operation, with arbitrary external-call outcomes. -/
inductive Step : Sys → Sys → Prop where
  | apiRegister (s : Sys) (req : RegistrationRequest)
      (inRes outRes regCreateRes regSubmitRes : Option String) :
      Step s (s.afterApiRegister req inRes outRes regCreateRes regSubmitRes)
  | regRegister (s : Sys) (acct : String) (createRes submitRes : Option String) :
      Step s (s.afterRegRegister acct createRes submitRes)
  | delete (s : Sys) (acct uid : String) (submitRes : Option String) :
      Step s (s.afterDelete acct uid submitRes)
  | createTopics (s : Sys) (acct : String) (inRes outRes : Option String) :
      Step s (s.afterCreateTopics acct inRes outRes)
  | connRequest (s : Sys) (fromAcct toInbound : String)
      (submitRes : Option String) (now : Nat) :
      Step s (s.afterConnRequest fromAcct toInbound submitRes now)
  | connTopic (s : Sys) (acctA acctB : String) (connectionId : Nat)
      (createRes subA subB : Option String) (now : Nat) :
      Step s (s.afterConnTopic acctA acctB connectionId createRes subA subB now)
  | notify (s : Sys) (toAcct fromAcct connectionTopicId : String)
      (connectionId : Nat) (submitRes : Option String) (now : Nat) :
      Step s (s.afterNotify toAcct fromAcct connectionTopicId connectionId submitRes now)
  | sendMessage (s : Sys) (fromAcct connectionTopicId messageData : String)
      (submitRes : Option String) (now : Nat) :
      Step s (s.afterSendMessage fromAcct connectionTopicId messageData submitRes now)
  | sendTransaction (s : Sys)
      (fromAcct connectionTopicId scheduleId transactionData : String)
      (submitRes : Option String) (now : Nat) :
      Step s (s.afterSendTransaction fromAcct connectionTopicId scheduleId
        transactionData submitRes now)

/-- States reachable from startup by protocol operations. -/
inductive Reachable : Sys → Prop where
  | init : Reachable Sys.init
  | step {s s' : Sys} : Reachable s → Step s s' → Reachable s'

/-! ## MemoCodec

The source only ever *encodes* topic memos: `AIAgent.get_topic_memo` and the
f-strings in `initialize_registry` / `create_connection_topic`.  The four
memo shapes they produce are collected in `TopicDescriptor`, and
`MemoCodec.encode` reproduces those strings verbatim (see the
`encode_eq_...` lemmas below).  The decoder does not exist anywhere in the
repository and is modelled from §4.1 of the spec. -/

/-- A topic descriptor: one of the four memo shapes the source encodes.
`registry` and `inbound` carry the extra field the source appends
(`registry_topic_id or ''` resp. `account_id`); `outbound` has no extra
field; `connection` carries the requester inbound topic id and the
connection sequence number. -/
inductive TopicDescriptor where
  | registry (ttl : Nat) (registryTopicId : String)
  | inbound (ttl : Nat) (accountId : String)
  | outbound (ttl : Nat)
  | connection (ttl : Nat) (inboundTopicId : String) (connectionId : Nat)
deriving DecidableEq, Repr

namespace MemoCodec

/-- The memo strings built by the source (`get_topic_memo`,
`initialize_registry`, `create_connection_topic`). -/
def encode : TopicDescriptor → String
  | .registry ttl rid => "hcs-10:0:" ++ toString ttl ++ ":3:" ++ rid
  | .inbound ttl acct => "hcs-10:0:" ++ toString ttl ++ ":0:" ++ acct
  | .outbound ttl => "hcs-10:0:" ++ toString ttl ++ ":1"
  | .connection ttl ib cid =>
      "hcs-10:1:" ++ toString ttl ++ ":2:" ++ ib ++ ":" ++ toString cid

/-- The free-text fields of a descriptor may not contain the delimiter. -/
def noColon (s : String) : Bool :=
  s.data.all (fun c => c != ':')

/-- A valid topic descriptor: the variable string fields are colon-free
(account ids and topic ids are of the shape `0.0.n`). -/
def validDescriptor : TopicDescriptor → Bool
  | .registry _ rid => noColon rid
  | .inbound _ acct => noColon acct
  | .outbound _ => true
  | .connection _ ib _ => noColon ib

/-- Value of a decimal digit character. -/
def digitVal? (c : Char) : Option Nat :=
  if c = '0' then some 0
  else if c = '1' then some 1
  else if c = '2' then some 2
  else if c = '3' then some 3
  else if c = '4' then some 4
  else if c = '5' then some 5
  else if c = '6' then some 6
  else if c = '7' then some 7
  else if c = '8' then some 8
  else if c = '9' then some 9
  else none

/-- Fold a digit string onto an accumulator, most significant digit first. -/
def parseNatAux : List Char → Nat → Option Nat
  | [], acc => some acc
  | c :: cs, acc =>
    match digitVal? c with
    | some d => parseNatAux cs (acc * 10 + d)
    | none => none

/-- Parse a non-empty decimal digit string. -/
def parseNat : List Char → Option Nat
  | [] => none
  | c :: cs => parseNatAux (c :: cs) 0

/-- Split a character list at every colon; always returns one piece more
than the number of colons. -/
def splitCols : List Char → List (List Char)
  | [] => [[]]
  | c :: cs =>
    if c = ':' then [] :: splitCols cs
    else
      match splitCols cs with
      | [] => [[c]]
      | t :: ts => (c :: t) :: ts

/-- Number of decimal digits of a natural number. -/
def digLen (n : Nat) : Nat :=
  if n < 10 then 1 else digLen (n / 10) + 1
termination_by n
decreasing_by exact Nat.div_lt_self (by omega) (by omega)

/-- Join character-list pieces with colons (the inverse of `splitCols` on
colon-free pieces). -/
def joinCols : List (List Char) → List Char
  | [] => []
  | [p] => p
  | p :: ps => p ++ ':' :: joinCols ps

/-- Modelled from the spec: the error class §4.1 and §7 require for memo
decoding failures (the repository defines no such type). -/
inductive MemoError where
  | malformedEnvelope
deriving DecidableEq, Repr

/-- Modelled from the spec: parse the colon-delimited, version-tagged memo
format of §4.1 into a descriptor candidate.  The field layout is exactly the
one `encode` emits: `marker:typeCode:ttl:subTypeCode[:extra[:seq]]`. -/
def decodeCand (s : String) : Option TopicDescriptor :=
  match (splitCols s.data).map (fun l => String.mk l) with
  | [mk, tc, ttl, sc] =>
    if mk = "hcs-10" ∧ tc = "0" ∧ sc = "1" then
      (parseNat ttl.data).map (fun n => .outbound n)
    else none
  | [mk, tc, ttl, sc, extra] =>
    if mk = "hcs-10" ∧ tc = "0" ∧ sc = "3" then
      (parseNat ttl.data).map (fun n => .registry n extra)
    else if mk = "hcs-10" ∧ tc = "0" ∧ sc = "0" then
      (parseNat ttl.data).map (fun n => .inbound n extra)
    else none
  | [mk, tc, ttl, sc, ib, cid] =>
    if mk = "hcs-10" ∧ tc = "1" ∧ sc = "2" then
      match parseNat ttl.data, parseNat cid.data with
      | some n, some c => some (.connection n ib c)
      | _, _ => none
    else none
  | _ => none

/-- Modelled from the spec: the memo decoder required by §4.1 — the
repository has no decoder, only the encoders.  A candidate is parsed from
the colon-delimited format and validated by re-encoding; every string that
is not the encoding of a valid descriptor is rejected with the
`MalformedEnvelope`-class error (a total function: no exception escapes). -/
def decode (s : String) : Except MemoError TopicDescriptor :=
  match decodeCand s with
  | some x =>
    if validDescriptor x = true ∧ encode x = s then .ok x
    else .error .malformedEnvelope
  | none => .error .malformedEnvelope

end MemoCodec

/-- Decidable equality of `Except` outcomes. -/
instance {ε α : Type} [DecidableEq ε] [DecidableEq α] : DecidableEq (Except ε α) := fun a b =>
  match a, b with
  | .ok x, .ok y =>
    if h : x = y then isTrue (by rw [h])
    else isFalse (fun hc => h (by injection hc))
  | .error e, .error f =>
    if h : e = f then isTrue (by rw [h])
    else isFalse (fun hc => h (by injection hc))
  | .ok _, .error _ => isFalse (fun hc => Except.noConfusion hc)
  | .error _, .ok _ => isFalse (fun hc => Except.noConfusion hc)

/-- Status of the stored record with the given account id, if any. -/
def Sys.statusOf (s : Sys) (acct : String) : Option AgentStatus :=
  (dbLookup s.db acct).map (fun a => a.status)

/-! ## Concrete runs used by counterexamples and witnesses -/

/-- Registration request used in the duplicate-registration run. -/
def c1Req : RegistrationRequest :=
  { agentName := "Alpha", accountId := "0.0.100" }

/-- First registration of `0.0.100`, all external calls succeeding. -/
def c1First : ApiResult RegisterResponse :=
  api_register_agent [] {} c1Req (some "0.0.11") (some "0.0.12")
    (some "0.0.10") (some "tx1")

/-- Second registration of the same account id, all external calls again
succeeding. -/
def c1Second : ApiResult RegisterResponse :=
  api_register_agent c1First.db c1First.st c1Req (some "0.0.21") (some "0.0.22")
    (some "0.0.20") (some "tx2")

/-- Request for an agent allowing a single connection. -/
def c2ReqA : RegistrationRequest :=
  { agentName := "Alpha", accountId := "0.0.100", maxConnections := some 1 }

/-- Request for the peer agent. -/
def c2ReqB : RegistrationRequest :=
  { agentName := "Beta", accountId := "0.0.200" }

/-- Register two agents (`0.0.100` with `maxConnections = 1`), then run two
successful connection-topic creations between them: each notification
increments `activeConnections` of `0.0.100`, pushing it past
`maxConnections`. -/
def c2Sys : Sys :=
  ((((Sys.init.afterApiRegister c2ReqA (some "0.0.11") (some "0.0.12")
        (some "0.0.10") (some "tx1")).afterApiRegister
      c2ReqB (some "0.0.21") (some "0.0.22") none (some "tx2")).afterConnTopic
      "0.0.100" "0.0.200" 1 (some "0.0.300") (some "tx3") (some "tx4") 5).afterConnTopic
      "0.0.100" "0.0.200" 2 (some "0.0.301") (some "tx5") (some "tx6") 6)

/-- One registration in which both topic creations fail but the Register
append succeeds: the record ends up Active with no topics. -/
def c3Sys : Sys :=
  Sys.init.afterApiRegister { agentName := "Alpha", accountId := "0.0.100" }
    none none (some "0.0.10") (some "tx1")

/-- Register then delete agent `0.0.100`: its record is Deleted here. -/
def c9Mid : Sys :=
  (Sys.init.afterApiRegister { agentName := "Alpha", accountId := "0.0.100" }
      (some "0.0.11") (some "0.0.12") (some "0.0.10") (some "tx1")).afterDelete
    "0.0.100" "uid-1" (some "tx2")

/-- A direct `register_agent` call on the deleted record with a successful
append: the record becomes Active again. -/
def c9Fin : Sys :=
  c9Mid.afterRegRegister "0.0.100" none (some "tx3")

/-- A registered agent with zero messages sent, used to exercise the
transaction-request endpoint. -/
def c7Agent : AIAgent :=
  { accountId := "0.0.100", agentName := "Alpha", status := .active
    inboundTopicId := some "0.0.11", outboundTopicId := some "0.0.12" }

/-- The transaction-request endpoint applied to `c7Agent` with a successful
submit. -/
def c7Api : ApiResult (Option String) :=
  api_request_transaction [c7Agent] {} "0.0.100" "0.0.300" "0.0.777"
    "trade" (some "tx1") 9

/-- Handshake requester: an Active agent with both topics assigned. -/
def c5A : AIAgent :=
  { accountId := "0.0.100", agentName := "Alpha", status := .active
    inboundTopicId := some "0.0.11", outboundTopicId := some "0.0.12"
    maxConnections := 1 }

/-- Handshake target: an Active agent with both topics assigned. -/
def c5B : AIAgent :=
  { accountId := "0.0.200", agentName := "Beta", status := .active
    inboundTopicId := some "0.0.21", outboundTopicId := some "0.0.22" }

/-- A record in the Deleted state. -/
def c9DelAgent : AIAgent :=
  { accountId := "0.0.100", agentName := "Alpha", status := .deleted }

/-! ## Helper lemmas -/

theorem isTruthy_none : isTruthy none = false := rfl

/-! ## Claim theorems -/

/-- C1 (amended): registration is keyed by `accountId` — a second `register`
call with the same account id creates no second AgentRecord, creates no
topics and appends nothing, but it is rejected with a 409 Conflict error
instead of returning the result of the first call. -/
theorem c1_duplicate_register_is_conflict (db : List AIAgent) (st : RegistryState)
    (req : RegistrationRequest) (r1 r2 r3 r4 : Option String)
    (h : dbLookup db req.accountId ≠ none) :
    api_register_agent db st req r1 r2 r3 r4 =
      { db := db, st := st, log := [], out := .error .conflict } := by
  unfold api_register_agent
  cases hd : dbLookup db req.accountId with
  | none => exact absurd hd h
  | some a => rfl

/-- C1 witness: on the store produced by the first successful registration of
`0.0.100`, a repeated registration request is a pure conflict. -/
theorem c1_duplicate_register_is_conflict_witness :
    api_register_agent c1First.db c1First.st c1Req (some "0.0.21") (some "0.0.22")
        (some "0.0.20") (some "tx2") =
      { db := c1First.db, st := c1First.st, log := [], out := .error .conflict } :=
  c1_duplicate_register_is_conflict c1First.db c1First.st c1Req
    (some "0.0.21") (some "0.0.22") (some "0.0.20") (some "tx2") (by decide)

/-- C1 counterexample: the claim says the second `register` call returns the
same result as the first rather than an error; in the code the second call
returns a 409 Conflict error, differing from the first result (while indeed
creating no second record). -/
theorem c1_counterexample :
    c1Second.out = .error .conflict ∧ c1First.out ≠ c1Second.out ∧
    c1Second.db.length = 1 := by decide

/-- C2 (amended): no capacity check exists — a `notifyConnectionCreated`
whose append succeeds always increments the target `activeConnections`
field by exactly 1, even when it already equals `maxConnections`; the
returned tx id is the submit result regardless, so there is no
`CapacityExceeded` failure and `activeConnections ≤ maxConnections` is not
an invariant of reachable states. -/
theorem c2_notify_has_no_capacity_check (toA fromA : AIAgent) (ct : String)
    (cid : Nat) (tx : Option String) (now : Nat) :
    ((notify_connection_created toA fromA ct cid tx now).1.activeConnections
        = toA.activeConnections + (if isTruthy tx then 1 else 0)) ∧
    ((notify_connection_created toA fromA ct cid tx now).2.2 = tx) := by
  unfold notify_connection_created
  by_cases h : isTruthy tx <;>
    simp [h, AIAgent.increment_messages_received, AIAgent.update_activity]

/-- C2 counterexample: a reachable state (register two agents, run two
successful connection-topic creations) in which agent `0.0.100` has
`activeConnections = 2` above its `maxConnections = 1`, and no operation
failed with `CapacityExceeded`. -/
theorem c2_counterexample :
    Reachable c2Sys ∧
    (dbLookup c2Sys.db "0.0.100").map
        (fun a => (a.activeConnections, a.maxConnections)) = some (2, 1) := by
  constructor
  · exact .step (.step (.step (.step .init
      (.apiRegister _ c2ReqA (some "0.0.11") (some "0.0.12") (some "0.0.10") (some "tx1")))
      (.apiRegister _ c2ReqB (some "0.0.21") (some "0.0.22") none (some "tx2")))
      (.connTopic _ "0.0.100" "0.0.200" 1 (some "0.0.300") (some "tx3") (some "tx4") 5))
      (.connTopic _ "0.0.100" "0.0.200" 2 (some "0.0.301") (some "tx5") (some "tx6") 6)
  · decide

/-- C3 (amended): `register_agent` sets the status to Active exactly when
the Register append to the registry topic returns a truthy tx id; it never
touches the topic-id fields and does not require the topics to exist, so
Active does not imply `inboundTopicId`/`outboundTopicId` are present. -/
theorem c3_active_independent_of_topics (st : RegistryState) (a : AIAgent)
    (createRes submitRes : Option String) :
    ((register_agent st a createRes submitRes).agent.inboundTopicId = a.inboundTopicId) ∧
    ((register_agent st a createRes submitRes).agent.outboundTopicId = a.outboundTopicId) ∧
    ((register_agent st a createRes submitRes).agent.status =
      if isTruthy (register_agent st a createRes submitRes).tx then .active
      else a.status) := by
  unfold register_agent initialize_registry
  by_cases h1 : isTruthy st.registryTopicId = true <;>
    by_cases h2 : isTruthy createRes = true <;>
      by_cases h3 : isTruthy submitRes = true <;>
        simp [h1, h2, h3, isTruthy_none]

/-- C3 counterexample: a reachable state — one registration in which both
topic creations fail but the Register append succeeds — whose record is
Active with neither topic id present. -/
theorem c3_counterexample :
    Reachable c3Sys ∧ c3Sys.statusOf "0.0.100" = some .active ∧
    (dbLookup c3Sys.db "0.0.100").map
        (fun a => (a.inboundTopicId, a.outboundTopicId)) = some (none, none) := by
  refine ⟨.step .init (.apiRegister _ _ none none (some "0.0.10") (some "tx1")), by decide, by decide⟩

/-- C6: `send_message` increments the sender `messages_sent` by exactly 1
and refreshes `last_activity` when the append returns a (truthy) tx id, and
leaves the record completely unchanged when the append fails. -/
theorem c6_send_message_counter (f : AIAgent) (ct d : String)
    (tx : Option String) (now : Nat) :
    (send_message f ct d tx now).1 =
      if isTruthy tx then
        { f with messagesSent := f.messagesSent + 1, lastActivity := now }
      else f := by
  unfold send_message AIAgent.increment_messages_sent AIAgent.update_activity
  by_cases h : isTruthy tx <;> simp [h]

/-- C7 (code bug): a successful `send_transaction_request` appends a
Transaction envelope carrying the schedule id and increments
`messages_sent` by exactly 1 — but through `POST /transactions/request` the
endpoint increments the counter a second time, so a sender starting at 0
ends at 2, not 1. -/
theorem c7_api_double_increment :
    c7Agent.messagesSent = 0 ∧
    ((send_transaction_request c7Agent "0.0.300" "0.0.777" "trade"
        (some "tx1") 9).1.messagesSent = 1) ∧
    ((dbLookup c7Api.db "0.0.100").map (fun a => a.messagesSent) = some 2) ∧
    (c7Api.log.map (fun m => (m.topicId, m.payload.op, m.payload.scheduleId)) =
      [("0.0.300", "transaction", some "0.0.777")]) := by decide

/-- C10: `create_agent_topics` attempts the two topic creations
independently: each topic-id field is assigned exactly when its own
`create_topic` call returned a (truthy) id, a failed inbound creation does
not prevent the outbound attempt, and a fresh record can be left with
exactly one of the two ids set. -/
theorem c10_topics_independent (a : AIAgent) (r1 r2 : Option String) :
    ((create_agent_topics a r1 r2).1.inboundTopicId =
      if isTruthy r1 then r1 else a.inboundTopicId) ∧
    ((create_agent_topics a r1 r2).1.outboundTopicId =
      if isTruthy r2 then r2 else a.outboundTopicId) ∧
    ((create_agent_topics { accountId := "0.0.100", agentName := "Alpha" }
        none (some "0.0.7")).1.inboundTopicId = none) ∧
    ((create_agent_topics { accountId := "0.0.100", agentName := "Alpha" }
        none (some "0.0.7")).1.outboundTopicId = some "0.0.7") := by
  refine ⟨?_, ?_, by decide, by decide⟩ <;>
    · unfold create_agent_topics
      by_cases h1 : isTruthy r1 <;> by_cases h2 : isTruthy r2 <;> simp [h1, h2]

/-- C5: a full successful handshake — `send_connection_request` from A to
the B inbound topic, then `create_connection_topic` which notifies each
participant once — increments `activeConnections` of both A and B by exactly
1, and the two ConnectionCreated envelopes carry the identical connection id
and the identical connection topic id. -/
theorem c5_handshake (st : RegistryState) (a b : AIAgent) (cid : Nat)
    (s1 cres s2 s3 : Option String) (n1 n2 : Nat)
    (hout : isTruthy a.outboundTopicId = true) (h1 : isTruthy s1 = true)
    (hc : isTruthy cres = true) (h2 : isTruthy s2 = true)
    (h3 : isTruthy s3 = true) :
    ((create_connection_topic st ((send_connection_request a (pyStr b.inboundTopicId) s1 n1).1)
        b cid cres s2 s3 n2).1.activeConnections = a.activeConnections + 1) ∧
    ((create_connection_topic st ((send_connection_request a (pyStr b.inboundTopicId) s1 n1).1)
        b cid cres s2 s3 n2).2.1.activeConnections = b.activeConnections + 1) ∧
    ((create_connection_topic st ((send_connection_request a (pyStr b.inboundTopicId) s1 n1).1)
        b cid cres s2 s3 n2).2.2.1.map
          (fun m => (m.payload.connectionId, m.payload.connectionTopicId)) =
      [(some cid, some (pyStr cres)), (some cid, some (pyStr cres))]) := by
  unfold create_connection_topic notify_connection_created send_connection_request
    AIAgent.increment_messages_sent AIAgent.increment_messages_received
    AIAgent.update_activity
  simp [hout, h1, hc, h2, h3]

/-- C5 witness: the handshake between the two concrete Active agents with
every external call succeeding. -/
theorem c5_handshake_witness :
    ((create_connection_topic {} ((send_connection_request c5A (pyStr c5B.inboundTopicId) (some "t1") 1).1)
        c5B 1 (some "0.0.300") (some "t2") (some "t3") 2).1.activeConnections = c5A.activeConnections + 1) ∧
    ((create_connection_topic {} ((send_connection_request c5A (pyStr c5B.inboundTopicId) (some "t1") 1).1)
        c5B 1 (some "0.0.300") (some "t2") (some "t3") 2).2.1.activeConnections = c5B.activeConnections + 1) ∧
    ((create_connection_topic {} ((send_connection_request c5A (pyStr c5B.inboundTopicId) (some "t1") 1).1)
        c5B 1 (some "0.0.300") (some "t2") (some "t3") 2).2.2.1.map
          (fun m => (m.payload.connectionId, m.payload.connectionTopicId)) =
      [(some 1, some (pyStr (some "0.0.300"))), (some 1, some (pyStr (some "0.0.300")))]) :=
  c5_handshake {} c5A c5B 1 (some "t1") (some "0.0.300") (some "t2") (some "t3") 1 2
    (by decide) (by decide) (by decide) (by decide) (by decide)

/-- C8: for a requester with both topics assigned, a successful
`send_connection_request` appends exactly one ConnectionRequest envelope to
the target inbound topic whose operator id is
`accountId@inboundTopicId`, and increments the requester
`messages_sent` by 1. -/
theorem c8_connection_request (f : AIAgent) (toInbound ib : String)
    (tx : Option String) (now : Nat)
    (hin : f.inboundTopicId = some ib) (hout : isTruthy f.outboundTopicId = true)
    (htx : isTruthy tx = true) :
    ((send_connection_request f toInbound tx now).2.1.map
        (fun m => (m.topicId, m.payload.op, m.payload.operatorId)) =
      [(toInbound, "connection_request", some (f.accountId ++ "@" ++ ib))]) ∧
    ((send_connection_request f toInbound tx now).1.messagesSent =
      f.messagesSent + 1) := by
  unfold send_connection_request AIAgent.increment_messages_sent
    AIAgent.update_activity
  simp [hout, htx, hin, pyStr]

/-- C8 witness: the concrete registered agent sends one successful
connection request. -/
theorem c8_connection_request_witness :
    ((send_connection_request c7Agent "0.0.21" (some "tx9") 3).2.1.map
        (fun m => (m.topicId, m.payload.op, m.payload.operatorId)) =
      [("0.0.21", "connection_request", some (c7Agent.accountId ++ "@" ++ "0.0.11"))]) ∧
    ((send_connection_request c7Agent "0.0.21" (some "tx9") 3).1.messagesSent =
      c7Agent.messagesSent + 1) :=
  c8_connection_request c7Agent "0.0.21" "0.0.11" (some "tx9") 3
    (by decide) (by decide) (by decide)

/-- C9 (amended): Deleted is terminal for every protocol operation except a
direct `register_agent` call on the same record: delete, topic creation,
connection request, connection-created notification, connection-topic
creation and message/transaction sends never change the status of a
Deleted record, and the register endpoint rejects a duplicate account id
without touching the stored record; but `AgentRegistry.register_agent`
applied directly to the record with a successful append sets it back to
Active. -/
theorem c9_deleted_terminal_except_register (st : RegistryState) (a : AIAgent)
    (hdel : a.status = .deleted) :
    (∀ uid sres, (delete_agent st a uid sres).agent.status = .deleted) ∧
    (∀ r1 r2, (create_agent_topics a r1 r2).1.status = .deleted) ∧
    (∀ ti sres now, (send_connection_request a ti sres now).1.status = .deleted) ∧
    (∀ fA ct cid sres now,
      (notify_connection_created a fA ct cid sres now).1.status = .deleted) ∧
    (∀ b cid r sA sB now,
      (create_connection_topic st a b cid r sA sB now).1.status = .deleted) ∧
    (∀ b cid r sA sB now,
      (create_connection_topic st b a cid r sA sB now).2.1.status = .deleted) ∧
    (∀ ct md sres now, (send_message a ct md sres now).1.status = .deleted) ∧
    (∀ ct sid td sres now,
      (send_transaction_request a ct sid td sres now).1.status = .deleted) ∧
    (∀ db req r1 r2 r3 r4, dbLookup db req.accountId = some a →
      api_register_agent db st req r1 r2 r3 r4 =
        { db := db, st := st, log := [], out := .error .conflict }) := by
  refine ⟨?_, ?_, ?_, ?_, ?_, ?_, ?_, ?_, ?_⟩
  · intro uid sres
    unfold delete_agent
    by_cases h1 : isTruthy st.registryTopicId = true <;>
      by_cases h2 : isTruthy sres = true <;> simp [h1, h2, hdel]
  · intro r1 r2
    unfold create_agent_topics
    by_cases h1 : isTruthy r1 = true <;> by_cases h2 : isTruthy r2 = true <;>
      simp [h1, h2, hdel]
  · intro ti sres now
    unfold send_connection_request AIAgent.increment_messages_sent
      AIAgent.update_activity
    by_cases h1 : isTruthy a.outboundTopicId = true <;>
      by_cases h2 : isTruthy sres = true <;> simp [h1, h2, hdel]
  · intro fA ct cid sres now
    unfold notify_connection_created AIAgent.increment_messages_received
      AIAgent.update_activity
    by_cases h1 : isTruthy sres = true <;> simp [h1, hdel]
  · intro b cid r sA sB now
    unfold create_connection_topic notify_connection_created
      AIAgent.increment_messages_received AIAgent.update_activity
    by_cases h1 : isTruthy r = true <;> by_cases h2 : isTruthy sA = true <;>
      simp [h1, h2, hdel]
  · intro b cid r sA sB now
    unfold create_connection_topic notify_connection_created
      AIAgent.increment_messages_received AIAgent.update_activity
    by_cases h1 : isTruthy r = true <;> by_cases h2 : isTruthy sB = true <;>
      simp [h1, h2, hdel]
  · intro ct md sres now
    unfold send_message AIAgent.increment_messages_sent AIAgent.update_activity
    by_cases h1 : isTruthy sres = true <;> simp [h1, hdel]
  · intro ct sid td sres now
    unfold send_transaction_request AIAgent.increment_messages_sent
      AIAgent.update_activity
    by_cases h1 : isTruthy sres = true <;> simp [h1, hdel]
  · intro db req r1 r2 r3 r4 hfound
    unfold api_register_agent
    rw [hfound]

/-- C9 witness: applied to a concrete Deleted record, a delete call keeps it
Deleted. -/
theorem c9_deleted_terminal_witness :
    (delete_agent { registryTopicId := some "0.0.10" } c9DelAgent "uid-1"
      (some "tx2")).agent.status = .deleted :=
  (c9_deleted_terminal_except_register { registryTopicId := some "0.0.10" }
    c9DelAgent (by decide)).1 "uid-1" (some "tx2")

/-- C9 counterexample: a reachable state whose record `0.0.100` is Deleted,
from which one protocol step — a direct `register_agent` call on that record
with a successful append — transitions the record to Active, so Deleted is
not terminal. -/
theorem c9_counterexample :
    Reachable c9Mid ∧ c9Mid.statusOf "0.0.100" = some .deleted ∧
    Step c9Mid c9Fin ∧ c9Fin.statusOf "0.0.100" = some .active := by
  refine ⟨.step (.step .init (.apiRegister _ _ (some "0.0.11") (some "0.0.12")
      (some "0.0.10") (some "tx1"))) (.delete _ "0.0.100" "uid-1" (some "tx2")),
    by decide, .regRegister _ "0.0.100" none (some "tx3"), by decide⟩

/-! ## MemoCodec lemmas -/

namespace MemoCodec

theorem digitVal?_digitChar : ∀ m, m < 10 → digitVal? (Nat.digitChar m) = some m := by
  decide

theorem digitChar_ne_colon : ∀ m, m < 10 → Nat.digitChar m ≠ ':' := by
  decide

theorem toDigitsCore_length_le :
    ∀ (fuel n : Nat) (ds : List Char),
      ds.length ≤ (Nat.toDigitsCore 10 fuel n ds).length := by
  intro fuel
  induction fuel with
  | zero => intro n ds; simp [Nat.toDigitsCore]
  | succ f ih =>
    intro n ds
    unfold Nat.toDigitsCore
    by_cases h : n / 10 = 0
    · simp [h]
    · simp only [h, if_false]
      calc ds.length ≤ (Nat.digitChar (n % 10) :: ds).length := by simp
        _ ≤ _ := ih (n / 10) _

theorem toDigitsCore_ne_nil :
    ∀ (f n : Nat) (ds : List Char), Nat.toDigitsCore 10 (f + 1) n ds ≠ [] := by
  intro f n ds
  unfold Nat.toDigitsCore
  by_cases h : n / 10 = 0
  · simp [h]
  · simp only [h, if_false]
    intro hnil
    have hle := toDigitsCore_length_le f (n / 10) (Nat.digitChar (n % 10) :: ds)
    rw [hnil] at hle
    simp at hle

theorem toDigitsCore_noColon :
    ∀ (fuel n : Nat) (ds : List Char), (∀ c ∈ ds, c ≠ ':') →
      ∀ c ∈ Nat.toDigitsCore 10 fuel n ds, c ≠ ':' := by
  intro fuel
  induction fuel with
  | zero => intro n ds h; simpa [Nat.toDigitsCore] using h
  | succ f ih =>
    intro n ds h
    have hd : Nat.digitChar (n % 10) ≠ ':' :=
      digitChar_ne_colon _ (Nat.mod_lt _ (by omega))
    have hcons : ∀ c ∈ Nat.digitChar (n % 10) :: ds, c ≠ ':' := by
      intro c hc
      rcases List.mem_cons.mp hc with h1 | h1
      · exact h1 ▸ hd
      · exact h c h1
    unfold Nat.toDigitsCore
    by_cases h0 : n / 10 = 0
    · simpa [h0] using hcons
    · simp only [h0, if_false]
      exact ih (n / 10) _ hcons

theorem parseNatAux_toDigitsCore :
    ∀ (fuel : Nat), 0 < fuel → ∀ (n : Nat) (ds : List Char) (acc : Nat),
      n < 10 ^ fuel →
      parseNatAux (Nat.toDigitsCore 10 fuel n ds) acc =
        parseNatAux ds (acc * 10 ^ digLen n + n) := by
  intro fuel
  induction fuel with
  | zero => omega
  | succ f ih =>
    intro _ n ds acc hlt
    unfold Nat.toDigitsCore
    by_cases h0 : n / 10 = 0
    · have hn : n < 10 := by omega
      have hmod : n % 10 = n := Nat.mod_eq_of_lt hn
      have hdl : digLen n = 1 := by rw [digLen]; simp [hn]
      simp only [h0, if_pos, parseNatAux, hmod, hdl]
      rw [digitVal?_digitChar n hn]
      norm_num
    · have hf : 0 < f := by
        rcases Nat.eq_zero_or_pos f with hf0 | hf0
        · subst hf0; omega
        · exact hf0
      have hdiv : n / 10 < 10 ^ f := by
        rw [Nat.div_lt_iff_lt_mul (by omega)]
        calc n < 10 ^ (f + 1) := hlt
          _ = 10 ^ f * 10 := by rw [pow_succ]
      simp only [h0, if_false]
      rw [ih hf (n / 10) (Nat.digitChar (n % 10) :: ds) acc hdiv]
      simp only [parseNatAux, digitVal?_digitChar (n % 10) (Nat.mod_lt _ (by omega))]
      have hdl : digLen n = digLen (n / 10) + 1 := by
        rw [digLen]; simp [show ¬n < 10 by omega]
      rw [hdl, pow_succ]
      congr 1
      have h10 : n / 10 * 10 + n % 10 = n := by omega
      calc (acc * 10 ^ digLen (n / 10) + n / 10) * 10 + n % 10
          = acc * (10 ^ digLen (n / 10) * 10) + (n / 10 * 10 + n % 10) := by ring
        _ = acc * (10 ^ digLen (n / 10) * 10) + n := by rw [h10]

theorem parseNat_repr (n : Nat) : parseNat (Nat.repr n).data = some n := by
  have hne : Nat.toDigitsCore 10 (n + 1) n [] ≠ [] := toDigitsCore_ne_nil n n []
  have hdata : (Nat.repr n).data = Nat.toDigitsCore 10 (n + 1) n [] := rfl
  have hbound : n < 10 ^ (n + 1) :=
    lt_of_lt_of_le (Nat.lt_pow_self (by omega) n)
      (Nat.pow_le_pow_right (by omega) (by omega))
  rw [hdata]
  rcases hl : Nat.toDigitsCore 10 (n + 1) n [] with _ | ⟨c, cs⟩
  · exact absurd hl hne
  · show parseNatAux (c :: cs) 0 = some n
    rw [← hl, parseNatAux_toDigitsCore (n + 1) (by omega) n [] 0 hbound]
    simp [parseNatAux]

theorem parseNat_toString (n : Nat) : parseNat (toString n).data = some n :=
  parseNat_repr n

theorem toString_noColon (n : Nat) : ∀ c ∈ (toString n).data, c ≠ ':' :=
  toDigitsCore_noColon (n + 1) n [] (by intro c hc; cases hc)

theorem noColon_iff (s : String) : noColon s = true ↔ ∀ c ∈ s.data, c ≠ ':' := by
  simp [noColon, List.all_eq_true]

theorem splitCols_colon (l : List Char) :
    splitCols (':' :: l) = [] :: splitCols l := by
  simp [splitCols]

theorem splitCols_append (l1 : List Char) (h : ∀ c ∈ l1, c ≠ ':') :
    ∀ (l2 t : List Char) (ts : List (List Char)),
      splitCols l2 = t :: ts → splitCols (l1 ++ l2) = (l1 ++ t) :: ts := by
  induction l1 with
  | nil => intro l2 t ts h2; simpa using h2
  | cons c l1 ih =>
    intro l2 t ts h2
    have hc : c ≠ ':' := h c (by simp)
    have ih2 := ih (fun d hd => h d (by simp [hd])) l2 t ts h2
    simp only [List.cons_append, splitCols, if_neg hc]
    rw [show l1.append l2 = l1 ++ l2 from rfl, ih2]

theorem splitCols_noColonList (l : List Char) (h : ∀ c ∈ l, c ≠ ':') :
    splitCols l = [l] := by
  have h2 := splitCols_append l h [] [] [] rfl
  simpa using h2

theorem splitCols_joinCols :
    ∀ (ps : List (List Char)) (p : List Char),
      (∀ q ∈ p :: ps, ∀ c ∈ q, c ≠ ':') →
      splitCols (joinCols (p :: ps)) = p :: ps := by
  intro ps
  induction ps with
  | nil => intro p h; exact splitCols_noColonList p (h p (by simp))
  | cons p1 ps ih =>
    intro p h
    have h1 := ih p1 (fun q hq => h q (by simp at hq ⊢; tauto))
    show splitCols (p ++ ':' :: joinCols (p1 :: ps)) = p :: p1 :: ps
    have hcolon : splitCols (':' :: joinCols (p1 :: ps)) = [] :: p1 :: ps := by
      rw [splitCols_colon, h1]
    have h2 := splitCols_append p (h p (by simp)) _ _ _ hcolon
    simpa using h2

theorem encode_data_registry (ttl : Nat) (rid : String) :
    (encode (.registry ttl rid)).data =
      joinCols ["hcs-10".data, ['0'], (toString ttl).data, ['3'], rid.data] := by
  show ((("hcs-10:0:" ++ toString ttl) ++ ":3:") ++ rid).data = _
  rw [String.data_append, String.data_append, String.data_append,
    List.append_assoc, List.append_assoc]
  rfl

theorem encode_data_inbound (ttl : Nat) (acct : String) :
    (encode (.inbound ttl acct)).data =
      joinCols ["hcs-10".data, ['0'], (toString ttl).data, ['0'], acct.data] := by
  show ((("hcs-10:0:" ++ toString ttl) ++ ":0:") ++ acct).data = _
  rw [String.data_append, String.data_append, String.data_append,
    List.append_assoc, List.append_assoc]
  rfl

theorem encode_data_outbound (ttl : Nat) :
    (encode (.outbound ttl)).data =
      joinCols ["hcs-10".data, ['0'], (toString ttl).data, ['1']] := by
  show (("hcs-10:0:" ++ toString ttl) ++ ":1").data = _
  rw [String.data_append, String.data_append, List.append_assoc]
  rfl

theorem encode_data_connection (ttl : Nat) (ib : String) (cid : Nat) :
    (encode (.connection ttl ib cid)).data =
      joinCols ["hcs-10".data, ['1'], (toString ttl).data, ['2'], ib.data,
        (toString cid).data] := by
  show ((((("hcs-10:1:" ++ toString ttl) ++ ":2:") ++ ib) ++ ":") ++ toString cid).data = _
  rw [String.data_append, String.data_append, String.data_append,
    String.data_append, String.data_append,
    List.append_assoc, List.append_assoc, List.append_assoc, List.append_assoc]
  rfl

theorem mk_data (s : String) : String.mk s.data = s := rfl

theorem mkPiece0 : String.mk ['0'] = "0" := rfl

theorem mkPiece1 : String.mk ['1'] = "1" := rfl

theorem mkPiece2 : String.mk ['2'] = "2" := rfl

theorem mkPiece3 : String.mk ['3'] = "3" := rfl

theorem decodeCand_encode (x : TopicDescriptor) (hv : validDescriptor x = true) :
    decodeCand (encode x) = some x := by
  cases x with
  | registry ttl rid =>
    have hnc : ∀ c ∈ rid.data, c ≠ ':' := (noColon_iff rid).mp hv
    have hsplit : splitCols (encode (.registry ttl rid)).data =
        ["hcs-10".data, ['0'], (toString ttl).data, ['3'], rid.data] := by
      rw [encode_data_registry]
      apply splitCols_joinCols
      intro q hq
      simp only [List.mem_cons, List.not_mem_nil, or_false] at hq
      rcases hq with h | h | h | h | h <;> subst h
      · decide
      · decide
      · exact toString_noColon ttl
      · decide
      · exact hnc
    unfold decodeCand
    rw [hsplit]
    simp only [List.map_cons, List.map_nil, mk_data, mkPiece0, mkPiece3]
    rw [if_pos (by decide), parseNat_toString]
    rfl
  | inbound ttl acct =>
    have hnc : ∀ c ∈ acct.data, c ≠ ':' := (noColon_iff acct).mp hv
    have hsplit : splitCols (encode (.inbound ttl acct)).data =
        ["hcs-10".data, ['0'], (toString ttl).data, ['0'], acct.data] := by
      rw [encode_data_inbound]
      apply splitCols_joinCols
      intro q hq
      simp only [List.mem_cons, List.not_mem_nil, or_false] at hq
      rcases hq with h | h | h | h | h <;> subst h
      · decide
      · decide
      · exact toString_noColon ttl
      · decide
      · exact hnc
    unfold decodeCand
    rw [hsplit]
    simp only [List.map_cons, List.map_nil, mk_data, mkPiece0]
    rw [if_neg (by decide), if_pos (by decide), parseNat_toString]
    rfl
  | outbound ttl =>
    have hsplit : splitCols (encode (.outbound ttl)).data =
        ["hcs-10".data, ['0'], (toString ttl).data, ['1']] := by
      rw [encode_data_outbound]
      apply splitCols_joinCols
      intro q hq
      simp only [List.mem_cons, List.not_mem_nil, or_false] at hq
      rcases hq with h | h | h | h <;> subst h
      · decide
      · decide
      · exact toString_noColon ttl
      · decide
    unfold decodeCand
    rw [hsplit]
    simp only [List.map_cons, List.map_nil, mk_data, mkPiece0, mkPiece1]
    rw [if_pos (by decide), parseNat_toString]
    rfl
  | connection ttl ib cid =>
    have hnc : ∀ c ∈ ib.data, c ≠ ':' := (noColon_iff ib).mp hv
    have hsplit : splitCols (encode (.connection ttl ib cid)).data =
        ["hcs-10".data, ['1'], (toString ttl).data, ['2'], ib.data,
          (toString cid).data] := by
      rw [encode_data_connection]
      apply splitCols_joinCols
      intro q hq
      simp only [List.mem_cons, List.not_mem_nil, or_false] at hq
      rcases hq with h | h | h | h | h | h <;> subst h
      · decide
      · decide
      · exact toString_noColon ttl
      · decide
      · exact hnc
      · exact toString_noColon cid
    unfold decodeCand
    rw [hsplit]
    simp only [List.map_cons, List.map_nil, mk_data, mkPiece1, mkPiece2]
    rw [if_pos (by decide), parseNat_toString, parseNat_toString]

theorem decode_encode (x : TopicDescriptor) (hv : validDescriptor x = true) :
    decode (encode x) = .ok x := by
  unfold decode
  rw [decodeCand_encode x hv]
  show (if validDescriptor x = true ∧ encode x = encode x then Except.ok x
      else Except.error MemoError.malformedEnvelope) = Except.ok x
  rw [if_pos ⟨hv, rfl⟩]

theorem decode_ok_sound (s : String) (x : TopicDescriptor)
    (h : decode s = .ok x) : validDescriptor x = true ∧ encode x = s := by
  unfold decode at h
  cases hc : decodeCand s with
  | none => rw [hc] at h; exact absurd h (by simp)
  | some y =>
    rw [hc] at h
    have h2 : (if validDescriptor y = true ∧ encode y = s then Except.ok y
        else Except.error MemoError.malformedEnvelope) = Except.ok x := h
    by_cases hg : validDescriptor y = true ∧ encode y = s
    · rw [if_pos hg] at h2
      injection h2 with h3
      exact h3 ▸ hg
    · rw [if_neg hg] at h2
      exact absurd h2 (by simp)

theorem decode_malformed (s : String)
    (h : ∀ x, validDescriptor x = true → encode x ≠ s) :
    decode s = .error .malformedEnvelope := by
  cases hd : decode s with
  | ok x =>
    have hs := decode_ok_sound s x hd
    exact absurd hs.2 (h x hs.1)
  | error e => cases e; rfl

theorem encode_ne_empty (x : TopicDescriptor) : encode x ≠ "" := by
  intro h
  have hl := congrArg String.length h
  cases x <;> simp [encode, String.length_append] at hl <;>
    first
      | exact absurd hl.1.1.1.1.1 (by decide)
      | exact absurd hl.1.1.1 (by decide)
      | exact absurd hl.1.1 (by decide)

end MemoCodec

/-- The codec encoder agrees with `AIAgent.get_topic_memo` on inbound
memos. -/
theorem encode_matches_inbound_memo (a : AIAgent) :
    MemoCodec.encode (.inbound a.ttl a.accountId) = a.get_topic_memo "inbound" := rfl

/-- The codec encoder agrees with `AIAgent.get_topic_memo` on outbound
memos. -/
theorem encode_matches_outbound_memo (a : AIAgent) :
    MemoCodec.encode (.outbound a.ttl) = a.get_topic_memo "outbound" := rfl

/-- The codec encoder agrees with `AIAgent.get_topic_memo` on registry
memos. -/
theorem encode_matches_registry_memo (a : AIAgent) :
    MemoCodec.encode (.registry a.ttl
        (match a.registryTopicId with | some s => s | none => "")) =
      a.get_topic_memo "registry" := rfl

/-- The codec encoder agrees with the connection-topic memo built in
`create_connection_topic`. -/
theorem encode_matches_connection_memo (st : RegistryState) (a : AIAgent)
    (cid : Nat) :
    MemoCodec.encode (.connection st.ttl (pyStr a.inboundTopicId) cid) =
      "hcs-10:1:" ++ toString st.ttl ++ ":2:" ++ pyStr a.inboundTopicId ++
        ":" ++ toString cid := rfl

/-- C4: the memo codec round-trips — decoding the encoding of any valid
topic descriptor returns that descriptor — and every string that is not the
encoding of a valid descriptor is rejected with the
`MalformedEnvelope`-class error (the decoder is a total function, so no
exception can escape). -/
theorem c4_memo_codec :
    (∀ x, MemoCodec.validDescriptor x = true →
      MemoCodec.decode (MemoCodec.encode x) = .ok x) ∧
    (∀ s : String, (∀ x, MemoCodec.validDescriptor x = true →
        MemoCodec.encode x ≠ s) →
      MemoCodec.decode s = .error .malformedEnvelope) :=
  ⟨MemoCodec.decode_encode, MemoCodec.decode_malformed⟩

/-- C4 witness: a concrete outbound descriptor round-trips, and the empty
string (not an encoding of any valid descriptor) is rejected as
malformed. -/
theorem c4_memo_codec_witness :
    MemoCodec.decode (MemoCodec.encode (.outbound 60)) = .ok (.outbound 60) ∧
    MemoCodec.decode "" = .error .malformedEnvelope :=
  ⟨c4_memo_codec.1 (.outbound 60) (by decide),
   c4_memo_codec.2 "" (fun x _ => MemoCodec.encode_ne_empty x)⟩

end Aetherflow
